import Mathlib

set_option maxHeartbeats 1000000

namespace Simplecache

/-- Python values the cache stores: a JSON-representable fragment on which
both payload codecs used by the source (`repr`/`eval` and
`json.dumps`/`json.loads`) are injective and mutually inverse.
`null` models Python `None`; compound payloads are modelled by `pair`. -/
inductive Value where
  | null : Value
  | bool : Bool → Value
  | int : Int → Value
  | str : String → Value
  | pair : Value → Value → Value
deriving DecidableEq

/-- A Kodi window property as the source uses it.  `entry` is the serialized
tuple `(expires, data, checksum)` written by `_set_mem_cache`; `jsonFlag`
records which codec produced the string (`json.dumps` when true, `repr`
otherwise).  `marker` holds plain marker strings such as `"busy"`, and
`timeMark` holds `repr(cur_time)` written under
`"simplecache.clean.lastexecuted"`. -/
inductive PropVal where
  | entry : Bool → Int → Value → Nat → PropVal
  | marker : String → PropVal
  | timeMark : Int → PropVal
deriving DecidableEq

/-- The serialized `data` column of a database row: the payload together with
the codec that produced the stored text (see `_set_db_cache`). -/
structure DataCol where
  jsonFlag : Bool
  value : Value
deriving DecidableEq

/-- One row of the `simplecache` table: `(id, expires, data, checksum)`;
the `id` is the association-list key. -/
structure DbRow where
  expires : Int
  data : DataCol
  checksum : Nat
deriving DecidableEq

/-- The mutable state of a `SimpleCache` object.  `win` models the
`xbmcgui.Window(10000)` property bag and `db` the `simplecache` table, both
as association lists.  `winAttr` / `monitorAttr` record whether the instance
attributes `_win` / `_monitor` are still present (they are removed by
`del` in `close`).  `dbOpen` records whether `_database` holds a
connection. -/
structure SimpleCache where
  enable_mem_cache : Bool
  data_is_json : Bool
  global_checksum : Option String
  exit : Bool
  abortRequested : Bool
  busy_tasks : List String
  win : List (String × PropVal)
  winAttr : Bool
  monitorAttr : Bool
  dbOpen : Bool
  db : List (String × DbRow)
deriving DecidableEq

/-- Association-list lookup (window `getProperty` / `SELECT ... WHERE id = ?`). -/
def alookup {α : Type} (l : List (String × α)) (k : String) : Option α :=
  l.lookup k

/-- Association-list overwrite (window `setProperty` / `INSERT OR REPLACE`). -/
def aset {α : Type} (l : List (String × α)) (k : String) (v : α) :
    List (String × α) :=
  (k, v) :: l.filter (fun p => p.1 != k)

/-- Association-list removal (window `clearProperty` / `DELETE ... WHERE id = ?`). -/
def aerase {α : Type} (l : List (String × α)) (k : String) :
    List (String × α) :=
  l.filter (fun p => p.1 != k)

theorem alookup_aset_same {α : Type} (l : List (String × α)) (k : String) (v : α) :
    alookup (aset l k v) k = some v := by
  simp [alookup, aset, List.lookup]

theorem alookup_filter_ne {α : Type} (l : List (String × α)) {k k' : String}
    (h : k' ≠ k) :
    List.lookup k' (l.filter (fun p => p.1 != k)) = List.lookup k' l := by
  induction l with
  | nil => rfl
  | cons p rest ih =>
    obtain ⟨a, b⟩ := p
    by_cases hk : a = k
    · subst hk
      have h2 : (k' == a) = false := by simp [h]
      simp [List.filter_cons, List.lookup, h2, ih]
    · have h1 : (((a, b) : String × α).1 != k) = true := by simp [hk]
      by_cases hk' : k' = a
      · subst hk'
        simp [List.filter_cons, h1, List.lookup]
      · have h2 : (k' == a) = false := by simp [hk']
        simp [List.filter_cons, h1, List.lookup, h2, ih]

theorem alookup_aset_ne {α : Type} (l : List (String × α)) {k k' : String}
    (h : k' ≠ k) (v : α) :
    alookup (aset l k v) k' = alookup l k' := by
  simp only [alookup, aset, List.lookup]
  have : (k' == k) = false := by simp [h]
  simp [this, alookup_filter_ne l h]

theorem alookup_aerase_ne {α : Type} (l : List (String × α)) {k k' : String}
    (h : k' ≠ k) :
    alookup (aerase l k) k' = alookup l k' := by
  simp only [alookup, aerase]
  exact alookup_filter_ne l h

theorem alookup_aerase_same {α : Type} (l : List (String × α)) (k : String) :
    alookup (aerase l k) k = none := by
  induction l with
  | nil => rfl
  | cons p rest ih =>
    obtain ⟨a, b⟩ := p
    by_cases hk : a = k
    · subst hk
      simpa [aerase, List.filter_cons] using ih
    · have h1 : (((a, b) : String × α).1 != k) = true := by simp [hk]
      have h2 : (k == a) = false := by simp [Ne.symm hk]
      simpa [aerase, alookup, List.filter_cons, h1, List.lookup, h2] using ih

/-- Sum of the character codes of a string,
Python `reduce(lambda x, y: x + y, map(ord, stringinput))`.  The two
agree on every string `_get_checksum` actually hashes (those are nonempty;
`reduce` over an empty sequence would raise instead of yielding 0). -/
def charSum (s : String) : Nat :=
  (s.data.map Char.toNat).sum

/-- Python truthiness of the `global_checksum` attribute (`None` and the
empty string are falsy). -/
def gTruthy (g : Option String) : Bool :=
  g.getD "" != ""

/-- `SimpleCache._get_checksum` (src/lib/simplecache.py lines 262-269). -/
def getChecksum (global_checksum : Option String) (stringinput : String) : Nat :=
  if stringinput = "" ∧ gTruthy global_checksum = false then 0
  else if gTruthy global_checksum then
    charSum (global_checksum.getD "" ++ "-" ++ stringinput)
  else
    charSum stringinput

/-- Outcome of one attempted statement execution inside `_execute_sql`:
success, an `sqlite3.OperationalError` whose text contains "locked", or any
other exception (a non-lock `OperationalError` or any other `Exception`;
both are caught and break the loop the same way). -/
inductive SqlOutcome where
  | ok : SqlOutcome
  | locked : SqlOutcome
  | otherError : SqlOutcome
deriving DecidableEq

/-- Observable result of `_execute_sql`: the cursor (`some i` records the
attempt index that succeeded, `none` is Python `None`), the number of
executed attempts, the number of `monitor.waitForAbort(0.5)` backoff waits
performed, and whether the final `if last_error:` warning line was logged. -/
structure SqlExec where
  result : Option Nat
  attempts : Nat
  waits : Nat
  logged : Bool
deriving DecidableEq

/-- The retry loop of `SimpleCache._execute_sql` (lines 216-252), from loop
counter `r`, over a schedule `outcomes` giving the result of each attempt.
`lastErr` records whether `last_error` is set (it is logged only when the
loop ends by exhaustion or by the abort guard, not on the direct
`return` paths). -/
def execSqlFrom (exitFlag abort : Bool) (outcomes : Nat → SqlOutcome)
    (r : Nat) (lastErr : Bool) : SqlExec :=
  if h : r < 10 ∧ abort = false then
    if exitFlag then ⟨none, r, r, false⟩
    else
      match outcomes r with
      | .ok => ⟨some r, r + 1, r, false⟩
      | .locked => execSqlFrom exitFlag abort outcomes (r + 1) true
      | .otherError => ⟨none, r + 1, r, true⟩
  else ⟨none, r, r, lastErr⟩
termination_by 10 - r
decreasing_by omega

/-- `SimpleCache._execute_sql`: run the retry loop from `retries = 0` with no
error recorded.  `abort` is `monitor.abortRequested()` (constant within one
call in this model). -/
def execSql (exitFlag abort : Bool) (outcomes : Nat → SqlOutcome) : SqlExec :=
  execSqlFrom exitFlag abort outcomes 0 false

/-- Contention-free schedule: every statement attempt succeeds. -/
def allOk : Nat → SqlOutcome := fun _ => .ok

/-- Whether a statement issued by the state-level operations executes (the
cursor is not `None`), under the contention-free schedule. -/
def sqlOk (s : SimpleCache) : Bool :=
  (execSql s.exit s.abortRequested allOk).result.isSome

theorem sqlOk_eq (s : SimpleCache) :
    sqlOk s = (!s.abortRequested && !s.exit) := by
  cases ha : s.abortRequested <;> cases he : s.exit <;>
    simp [sqlOk, execSql, execSqlFrom, allOk, ha, he]

/-- `SimpleCache._get_mem_cache` (lines 95-107).  Reads a window property,
decodes it with the codec selected by `json_data or self.data_is_json`, and
applies the expiry and checksum tests.  A property produced by the other
codec (whose decode would not return a well-formed tuple) and non-entry
marker properties are modelled as a miss. -/
def SimpleCache.get_mem_cache (s : SimpleCache) (endpoint : String)
    (checksum : Nat) (cur_time : Int) (json_data : Bool) : Value :=
  match alookup s.win endpoint with
  | some (.entry flag expires data cs) =>
    if flag = (json_data || s.data_is_json) then
      if expires > cur_time then
        if checksum = 0 ∨ checksum = cs then data else .null
      else .null
    else .null
  | _ => .null

/-- `SimpleCache._set_mem_cache` (lines 109-115): serialize
`(expires, data, checksum)` with the selected codec and store it under the
endpoint key. -/
def SimpleCache.set_mem_cache (s : SimpleCache) (endpoint : String)
    (checksum : Nat) (expires : Int) (data : Value) (json_data : Bool) :
    SimpleCache :=
  let v : PropVal := .entry (json_data || s.data_is_json) expires data checksum
  { s with win := aset s.win endpoint v }

/-- `SimpleCache._get_db_cache` (lines 117-131).  `_execute_sql` first opens
the connection (`_get_database`), then the SELECT runs; on a valid row the
payload is decoded and promoted into the ephemeral tier with the
caller's requested `checksum` and the row's `expires`. -/
def SimpleCache.get_db_cache (s : SimpleCache) (endpoint : String)
    (checksum : Nat) (cur_time : Int) (json_data : Bool) :
    Value × SimpleCache :=
  let s1 : SimpleCache := { s with dbOpen := true }
  if sqlOk s1 then
    match alookup s1.db endpoint with
    | some row =>
      if row.expires > cur_time then
        if checksum = 0 ∨ row.checksum = checksum then
          if row.data.jsonFlag = (json_data || s1.data_is_json) then
            if s1.enable_mem_cache then
              (row.data.value,
               s1.set_mem_cache endpoint checksum row.expires row.data.value
                 json_data)
            else (row.data.value, s1)
          else (.null, s1)
        else (.null, s1)
      else (.null, s1)
    | none => (.null, s1)
  else (.null, s1)

/-- `SimpleCache._set_db_cache` (lines 133-139): serialize the payload and
upsert the row with `INSERT OR REPLACE`. -/
def SimpleCache.set_db_cache (s : SimpleCache) (endpoint : String)
    (checksum : Nat) (expires : Int) (data : Value) (json_data : Bool) :
    SimpleCache :=
  let s1 : SimpleCache := { s with dbOpen := true }
  let row : DbRow := ⟨expires, ⟨json_data || s1.data_is_json, data⟩, checksum⟩
  if sqlOk s1 then { s1 with db := aset s1.db endpoint row }
  else s1

/-- `SimpleCache.get` (lines 60-71).  `now` is the timestamp of
`datetime.datetime.now()` at call start; the effective checksum and
`cur_time` are computed once.  Python signals a miss with the return value
`None` (= `Value.null`). -/
def SimpleCache.get (s : SimpleCache) (endpoint : String)
    (checksumArg : String) (json_data : Bool) (now : Int) :
    Value × SimpleCache :=
  let checksum := getChecksum s.global_checksum checksumArg
  let cur_time := now
  let result :=
    if s.enable_mem_cache then
      s.get_mem_cache endpoint checksum cur_time json_data
    else .null
  if result = .null then s.get_db_cache endpoint checksum cur_time json_data
  else (result, s)

/-- `SimpleCache.set` (lines 73-85).  `expiration` is the timedelta in
seconds, so `expires = now + expiration`.  Registers the task in
`_busy_tasks`, skips the ephemeral and persistent writes when `_exit` is
set, then removes the first occurrence of the task name again. -/
def SimpleCache.set (s : SimpleCache) (endpoint : String) (data : Value)
    (checksumArg : String) (expiration : Int) (json_data : Bool)
    (now : Int) : SimpleCache :=
  let task := "set." ++ endpoint
  let s1 : SimpleCache := { s with busy_tasks := s.busy_tasks ++ [task] }
  let checksum := getChecksum s1.global_checksum checksumArg
  let expires := now + expiration
  let s2 : SimpleCache :=
    if s1.enable_mem_cache && !s1.exit then
      s1.set_mem_cache endpoint checksum expires data json_data
    else s1
  let s3 : SimpleCache :=
    if !s2.exit then s2.set_db_cache endpoint checksum expires data json_data
    else s2
  { s3 with busy_tasks := s3.busy_tasks.erase task }

/-- Result of `SimpleCache.close` (lines 38-54).  `blocked` is the
`while self._busy_tasks and not self._monitor.abortRequested(): xbmc.sleep(25)`
loop waiting until the busy-task list drains or the host abort signal
fires (in this sequential model nothing else can empty the list, so the call
stays in the loop); `raised` is an `AttributeError` escaping from
`del self._win` / `del self._monitor`, carrying the state at that point;
`closed` is normal completion. -/
inductive CloseOutcome where
  | blocked : SimpleCache → CloseOutcome
  | raised : SimpleCache → CloseOutcome
  | closed : SimpleCache → CloseOutcome
deriving DecidableEq

/-- `SimpleCache.close` (lines 38-54): set `_exit`, wait for busy tasks,
release the connection (`commit`/`close` failures are swallowed and
`_database` is set to `None` either way), then `del self._win` and
`del self._monitor` — each raises `AttributeError` when the instance
attribute is already gone. -/
def SimpleCache.close (s : SimpleCache) : CloseOutcome :=
  let s1 : SimpleCache := { s with exit := true }
  if s1.busy_tasks ≠ [] ∧ s1.abortRequested = false then .blocked s1
  else
    let s2 : SimpleCache := if s1.dbOpen then { s1 with dbOpen := false } else s1
    if s2.winAttr then
      let s3 : SimpleCache := { s2 with winAttr := false }
      if s3.monitorAttr then .closed { s3 with monitorAttr := false }
      else .raised s3
    else .raised s2

/-- The `__name__` token the cleanup sweep appends to `_busy_tasks`
(the Python module name; its exact text is irrelevant, only its identity). -/
def moduleName : String := "simplecache"

/-- Window key of the cleanup mutual-exclusion marker. -/
def busyKey : String := "simplecachecleanbusy"

/-- Window key of the persisted last-cleanup timestamp. -/
def lastExecKey : String := "simplecache.clean.lastexecuted"

/-- Python truthiness of a `getProperty` result: an unset property reads as
the empty string, which is falsy. -/
def propTruthy : Option PropVal → Bool
  | none => false
  | some (.marker m) => m != ""
  | some _ => true

/-- Result of the row loop inside `_do_cleanup`: either the early
`return` taken when `self._exit or self._monitor.abortRequested()` turns
true at a row, or normal exhaustion of the cursor. -/
inductive LoopResult where
  | aborted : SimpleCache → LoopResult
  | finished : SimpleCache → Nat → LoopResult
deriving DecidableEq

/-- State carried by a `LoopResult`. -/
def LoopResult.state : LoopResult → SimpleCache
  | .aborted s => s
  | .finished s _ => s

/-- The `for cache_data in cursor.fetchall():` loop of `_do_cleanup`
(lines 155-167) over the snapshot `rows` of `(id, expires)` pairs.
`abortSeq n` is the value returned by the `n`-th `abortRequested()` probe
made during this cleanup run; `n` is threaded as a counter.  Each row:
probe abort (early `return` when true), `clearProperty(id)`, and when the
row is expired issue the DELETE through `_execute_sql` (which consumes one
probe in its loop guard and is skipped when it reports abort/exit). -/
def cleanupLoop (cur_ts : Int) (abortSeq : Nat → Bool) :
    SimpleCache → List (String × Int) → Nat → LoopResult
  | s, [], n => .finished s n
  | s, (id, exp) :: rest, n =>
    if s.exit || abortSeq n then .aborted s
    else
      let s1 : SimpleCache := { s with win := aerase s.win id }
      if exp < cur_ts then
        let s2 : SimpleCache :=
          if !abortSeq (n + 1) && !s1.exit then { s1 with db := aerase s1.db id }
          else s1
        cleanupLoop cur_ts abortSeq s2 rest (n + 2)
      else cleanupLoop cur_ts abortSeq s1 rest (n + 1)

/-- Result of `SimpleCache._do_cleanup` (lines 141-174).  `earlyEntry` is
the guard `return` before anything happens; `earlyBusy` the `return` taken
when `"simplecachecleanbusy"` is already set (after the busy-task append);
`earlyAbort` the mid-loop `return`; `done` a completed sweep. -/
inductive CleanupResult where
  | earlyEntry : SimpleCache → CleanupResult
  | earlyBusy : SimpleCache → CleanupResult
  | earlyAbort : SimpleCache → CleanupResult
  | done : SimpleCache → CleanupResult
deriving DecidableEq

/-- `SimpleCache._do_cleanup` (lines 141-174).  `now` stands for both
`cur_time` and its integer timestamp `cur_timestamp`.  The SELECT consumes
abort probe 1 in the `_execute_sql` guard; when it yields no cursor the row
loop is skipped but the completion path still runs.  Completion: remove the
busy task, store `repr(cur_time)` under the last-executed key, clear the
busy marker.  The VACUUM has no observable state effect here. -/
def SimpleCache.do_cleanup (s : SimpleCache) (now : Int)
    (abortSeq : Nat → Bool) : CleanupResult :=
  if s.exit || abortSeq 0 then .earlyEntry s
  else
    let s1 : SimpleCache := { s with busy_tasks := s.busy_tasks ++ [moduleName] }
    if propTruthy (alookup s1.win busyKey) then .earlyBusy s1
    else
      let s2 : SimpleCache := { s1 with win := aset s1.win busyKey (.marker "busy") }
      let s3 : SimpleCache := { s2 with dbOpen := true }
      let afterLoop : LoopResult :=
        if !abortSeq 1 && !s3.exit then
          cleanupLoop now abortSeq s3 (s3.db.map (fun p => (p.1, p.2.expires))) 2
        else .finished s3 2
      match afterLoop with
      | .aborted s4 => .earlyAbort s4
      | .finished s4 _ =>
        let s5 : SimpleCache := { s4 with busy_tasks := s4.busy_tasks.erase moduleName }
        let s6 : SimpleCache := { s5 with win := aset s5.win lastExecKey (.timeMark now) }
        .done { s6 with win := aerase s6.win busyKey }

/-- A freshly constructed engine: default class attributes, window and
table empty, instance attributes `_win` and `_monitor` present,
no connection yet. -/
def initState : SimpleCache :=
  { enable_mem_cache := true
    data_is_json := false
    global_checksum := none
    exit := false
    abortRequested := false
    busy_tasks := []
    win := []
    winAttr := true
    monitorAttr := true
    dbOpen := false
    db := [] }

/-- The string `_get_checksum` actually hashes, as the spec describes it:
the configured global fingerprint first, hyphen-joined with the
caller-supplied checksum. -/
def composedInput (g : Option String) (cs : String) : String :=
  if gTruthy g then g.getD "" ++ "-" ++ cs else cs

/-- C3: the claim's "is 0 exactly when the caller supplies no (empty)
checksum and no global fingerprint is configured" fails in the
right-to-left-only direction: a nonempty caller checksum consisting of a
NUL character also hashes to 0, because the sum of its character codes
is 0. -/
theorem C3_counterexample :
    getChecksum none "\x00" = 0 ∧ ("\x00" : String) ≠ "" ∧
      gTruthy none = false := by
  refine ⟨by decide, by decide, by decide⟩

/-- C3 (amended): the effective checksum is 0 when the caller supplies an
empty checksum and no global fingerprint is configured; in every other case
it equals the sum of the character codes of the composed string (global
fingerprint first, hyphen-joined with the caller string) — a value that is
itself 0 for strings of NUL characters, so 0 does not certify an absent
checksum. -/
theorem C3_checksum_amended (g : Option String) (cs : String) :
    (cs = "" → gTruthy g = false → getChecksum g cs = 0) ∧
    (¬(cs = "" ∧ gTruthy g = false) →
      getChecksum g cs = charSum (composedInput g cs)) := by
  constructor
  · intro h1 h2
    simp [getChecksum, h1, h2]
  · intro h
    by_cases hg : gTruthy g = true
    · have : ¬ (cs = "" ∧ gTruthy g = false) := by simp [hg]
      simp [getChecksum, composedInput, hg, this]
    · have hg' : gTruthy g = false := by simpa using hg
      have hcs : ¬ cs = "" := fun hc => h ⟨hc, hg'⟩
      simp [getChecksum, composedInput, hg', hcs]

/-- C3 witness: a configured global fingerprint `"abc"` with caller
checksum `"x"` hashes the composed string `"abc-x"`. -/
theorem C3_witness :
    getChecksum (some "abc") "x" = charSum (composedInput (some "abc") "x") :=
  (C3_checksum_amended (some "abc") "x").2 (by decide)

/-- C7: once `_exit` is set, `set` silently skips both the ephemeral write
and the persistent write (and does not touch the connection); it is a total
function here, so it returns normally with no error. -/
theorem C7_set_after_close_noop (s : SimpleCache) (k : String) (v : Value)
    (cs : String) (exp : Int) (jd : Bool) (now : Int)
    (h : s.exit = true) :
    (s.set k v cs exp jd now).win = s.win ∧
    (s.set k v cs exp jd now).db = s.db ∧
    (s.set k v cs exp jd now).dbOpen = s.dbOpen := by
  simp [SimpleCache.set, h]

/-- C7 witness: a concrete post-shutdown `set` leaves both tiers and the
connection untouched. -/
theorem C7_witness :
    (SimpleCache.set { initState with exit := true } "k" (Value.int 1) ""
        5 false 0).win = ({ initState with exit := true } : SimpleCache).win ∧
    (SimpleCache.set { initState with exit := true } "k" (Value.int 1) ""
        5 false 0).db = ({ initState with exit := true } : SimpleCache).db ∧
    (SimpleCache.set { initState with exit := true } "k" (Value.int 1) ""
        5 false 0).dbOpen
      = ({ initState with exit := true } : SimpleCache).dbOpen :=
  C7_set_after_close_noop { initState with exit := true } "k" (Value.int 1)
    "" 5 false 0 rfl

theorem execSqlFrom_stop (outs : Nat → SqlOutcome) (r : Nat) (b : Bool)
    (hr : ¬ r < 10) :
    execSqlFrom false false outs r b = ⟨none, r, r, b⟩ := by
  unfold execSqlFrom
  simp [hr]

theorem execSqlFrom_ok (outs : Nat → SqlOutcome) (r : Nat) (b : Bool)
    (hr : r < 10) (h : outs r = .ok) :
    execSqlFrom false false outs r b = ⟨some r, r + 1, r, false⟩ := by
  unfold execSqlFrom
  simp [hr, h]

theorem execSqlFrom_err (outs : Nat → SqlOutcome) (r : Nat) (b : Bool)
    (hr : r < 10) (h : outs r = .otherError) :
    execSqlFrom false false outs r b = ⟨none, r + 1, r, true⟩ := by
  unfold execSqlFrom
  simp [hr, h]

theorem execSqlFrom_step_locked (outs : Nat → SqlOutcome) (r : Nat) (b : Bool)
    (hr : r < 10) (h : outs r = .locked) :
    execSqlFrom false false outs r b
      = execSqlFrom false false outs (r + 1) true := by
  conv_lhs => unfold execSqlFrom
  simp [hr, h]

theorem execSqlFrom_walk (outs : Nat → SqlOutcome) :
    ∀ i, i ≤ 10 → (∀ j, j < i → outs j = .locked) → ∀ b,
      execSqlFrom false false outs 0 b
        = execSqlFrom false false outs i (b || decide (0 < i)) := by
  intro i
  induction i with
  | zero => intro _ _ b; simp
  | succ i ih =>
    intro hi hpre b
    have h1 := ih (by omega) (fun j hj => hpre j (by omega)) b
    have h2 := execSqlFrom_step_locked outs i (b || decide (0 < i))
      (by omega) (hpre i (by omega))
    rw [h1, h2]
    simp

theorem execSqlFrom_attempts_le (outs : Nat → SqlOutcome) :
    ∀ k r b, r ≤ 10 → 10 - r ≤ k →
      (execSqlFrom false false outs r b).attempts ≤ 10 := by
  intro k
  induction k with
  | zero =>
    intro r b hr hk
    have h : ¬ r < 10 := by omega
    rw [execSqlFrom_stop outs r b h]
    exact hr
  | succ k ih =>
    intro r b hr hk
    by_cases hlt : r < 10
    · cases houts : outs r with
      | ok => rw [execSqlFrom_ok outs r b hlt houts]; exact hlt
      | locked =>
        rw [execSqlFrom_step_locked outs r b hlt houts]
        exact ih (r + 1) true (by omega) (by omega)
      | otherError => rw [execSqlFrom_err outs r b hlt houts]; exact hlt
    · rw [execSqlFrom_stop outs r b hlt]; exact hr

/-- C4: the `_execute_sql` retry protocol.  (1) At most 10 statement
attempts happen.  (2) When every attempt fails with a lock error the loop
retries after an interruptible `waitForAbort(0.5)` each time, exhausts its
10 attempts with 10 waits, logs the error and returns `None` to the caller
(no exception escapes: both `except` arms swallow the exception).  (3) A
failure with any other cause after `i` lock retries stops immediately —
`i + 1` attempts, no extra wait — logs, and returns `None`.  (4) A success
after `i` lock retries returns the cursor on attempt `i + 1`. -/
theorem C4_execute_sql_retry (outs : Nat → SqlOutcome) (i : Nat) :
    (execSql false false outs).attempts ≤ 10 ∧
    ((∀ j, j < 10 → outs j = .locked) →
      execSql false false outs = ⟨none, 10, 10, true⟩) ∧
    (i < 10 → (∀ j, j < i → outs j = .locked) → outs i = .otherError →
      execSql false false outs = ⟨none, i + 1, i, true⟩) ∧
    (i < 10 → (∀ j, j < i → outs j = .locked) → outs i = .ok →
      execSql false false outs = ⟨some i, i + 1, i, false⟩) := by
  refine ⟨?_, ?_, ?_, ?_⟩
  · exact execSqlFrom_attempts_le outs 10 0 false (by omega) (by omega)
  · intro h
    rw [execSql, execSqlFrom_walk outs 10 (by omega) h false]
    rw [execSqlFrom_stop outs 10 _ (by omega)]
    simp
  · intro hi hpre h
    rw [execSql, execSqlFrom_walk outs i (by omega) hpre false]
    rw [execSqlFrom_err outs i _ hi h]
  · intro hi hpre h
    rw [execSql, execSqlFrom_walk outs i (by omega) hpre false]
    rw [execSqlFrom_ok outs i _ hi h]

/-- Schedule used by the C4 witness: three lock conflicts, then a non-lock
failure. -/
def c4Outs : Nat → SqlOutcome :=
  fun n => if n < 3 then .locked else .otherError

/-- C4 witness: with three lock conflicts followed by a non-lock failure,
`_execute_sql` makes exactly 4 attempts, waits 3 times, logs, and hands
`None` back. -/
theorem C4_witness :
    execSql false false c4Outs = ⟨none, 4, 3, true⟩ :=
  (C4_execute_sql_retry c4Outs 3).2.2.1 (by decide) (by decide) (by decide)

theorem mem_hit (s : SimpleCache) (k : String) (req : Nat) (t : Int)
    (jd fl : Bool) (ex : Int) (d : Value) (c : Nat)
    (hm : alookup s.win k = some (.entry fl ex d c))
    (hfl : fl = (jd || s.data_is_json)) :
    s.get_mem_cache k req t jd
      = if t < ex ∧ (req = 0 ∨ req = c) then d else .null := by
  unfold SimpleCache.get_mem_cache
  rw [hm]
  simp only [hfl, if_pos rfl]
  by_cases h1 : t < ex
  · by_cases h2 : req = 0 ∨ req = c
    · simp [h1, h2, gt_iff_lt]
    · simp [h1, h2, gt_iff_lt]
  · simp [h1, gt_iff_lt]

theorem db_hit (s : SimpleCache) (k : String) (req : Nat) (t : Int)
    (jd : Bool) (row : DbRow)
    (hdb : alookup s.db k = some row)
    (hrfl : row.data.jsonFlag = (jd || s.data_is_json))
    (hexit : s.exit = false) (hab : s.abortRequested = false) :
    (s.get_db_cache k req t jd).1
      = if t < row.expires ∧ (req = 0 ∨ req = row.checksum)
        then row.data.value else .null := by
  unfold SimpleCache.get_db_cache
  have hok : sqlOk { s with dbOpen := true } = true := by
    rw [sqlOk_eq]; simp [hexit, hab]
  simp only [hok, if_pos rfl]
  rw [show ({ s with dbOpen := true } : SimpleCache).db = s.db from rfl, hdb]
  simp only [hrfl]
  by_cases h1 : t < row.expires
  · by_cases h2 : req = 0 ∨ req = row.checksum
    · have h2' : req = 0 ∨ row.checksum = req := by tauto
      rcases h2' with h | h <;>
        simp [h1, h2, gt_iff_lt, h] <;>
        by_cases he : s.enable_mem_cache <;> simp [he]
    · have h2' : ¬ (req = 0 ∨ row.checksum = req) := by tauto
      simp [h1, h2, h2', gt_iff_lt]
  · simp [h1, gt_iff_lt]

/-- C2: the validity test on both read paths.  Given an ephemeral entry and
a persistent row for the same key (each stored with the codec the read
requests), each path returns its stored payload exactly when
`now < expires` and (the requested checksum is 0 or equals the stored
checksum), and returns the absent value otherwise; a requested checksum of
0 always passes, leaving only the expiry test. -/
theorem C2_validity_test (s : SimpleCache) (k : String) (req : Nat) (t : Int)
    (jd fl : Bool) (ex : Int) (d : Value) (c : Nat) (row : DbRow)
    (hm : alookup s.win k = some (.entry fl ex d c))
    (hfl : fl = (jd || s.data_is_json))
    (hdb : alookup s.db k = some row)
    (hrfl : row.data.jsonFlag = (jd || s.data_is_json))
    (hexit : s.exit = false) (hab : s.abortRequested = false) :
    (s.get_mem_cache k req t jd
        = if t < ex ∧ (req = 0 ∨ req = c) then d else .null) ∧
    ((s.get_db_cache k req t jd).1
        = if t < row.expires ∧ (req = 0 ∨ req = row.checksum)
          then row.data.value else .null) ∧
    (s.get_mem_cache k 0 t jd = if t < ex then d else .null) ∧
    ((s.get_db_cache k 0 t jd).1
        = if t < row.expires then row.data.value else .null) := by
  refine ⟨mem_hit s k req t jd fl ex d c hm hfl,
          db_hit s k req t jd row hdb hrfl hexit hab, ?_, ?_⟩
  · rw [mem_hit s k 0 t jd fl ex d c hm hfl]
    simp
  · rw [db_hit s k 0 t jd row hdb hrfl hexit hab]
    simp

/-- State used by the C2 witness: one fresh ephemeral entry and one
persistent row for `"k"`, with different stored checksums. -/
def c2State : SimpleCache :=
  { initState with
      win := [("k", .entry false 100 (.str "memval") 7)]
      db := [("k", ⟨200, ⟨false, .str "dbval"⟩, 9⟩)] }

/-- C2 witness: at time 50 with requested checksum 7 the ephemeral path
returns its payload while the persistent path (stored checksum 9)
returns absent; checksum 0 passes on both. -/
theorem C2_witness :
    (c2State.get_mem_cache "k" 7 50 false
        = if (50 : Int) < 100 ∧ ((7 : Nat) = 0 ∨ (7 : Nat) = 7)
          then Value.str "memval" else .null) ∧
    ((c2State.get_db_cache "k" 7 50 false).1
        = if (50 : Int) < 200 ∧ ((7 : Nat) = 0 ∨ (7 : Nat) = 9)
          then Value.str "dbval" else .null) ∧
    (c2State.get_mem_cache "k" 0 50 false
        = if (50 : Int) < 100 then Value.str "memval" else .null) ∧
    ((c2State.get_db_cache "k" 0 50 false).1
        = if (50 : Int) < 200 then Value.str "dbval" else .null) :=
  C2_validity_test c2State "k" 7 50 false false 100 (.str "memval") 7
    ⟨200, ⟨false, .str "dbval"⟩, 9⟩ (by decide) (by decide) (by decide)
    (by decide) (by decide) (by decide)

theorem set_state (s : SimpleCache) (k : String) (v : Value) (cs : String)
    (exp now : Int) (jd : Bool)
    (hexit : s.exit = false) (hab : s.abortRequested = false) :
    ((s.set k v cs exp jd now).win
        = if s.enable_mem_cache then
            aset s.win k (.entry (jd || s.data_is_json) (now + exp) v
              (getChecksum s.global_checksum cs))
          else s.win) ∧
    ((s.set k v cs exp jd now).db
        = aset s.db k ⟨now + exp, ⟨jd || s.data_is_json, v⟩,
            getChecksum s.global_checksum cs⟩) ∧
    (s.set k v cs exp jd now).enable_mem_cache = s.enable_mem_cache ∧
    (s.set k v cs exp jd now).data_is_json = s.data_is_json ∧
    (s.set k v cs exp jd now).global_checksum = s.global_checksum ∧
    (s.set k v cs exp jd now).exit = false ∧
    (s.set k v cs exp jd now).abortRequested = false := by
  cases he : s.enable_mem_cache <;>
    simp [SimpleCache.set, SimpleCache.set_mem_cache,
      SimpleCache.set_db_cache, sqlOk_eq, hexit, hab, he]

/-- C1: round trip.  `set(k, v)` immediately followed by `get(k)` with the
same checksum argument, the same encoding selection and a read time before
the computed expiry returns exactly `v`, whether the ephemeral tier is
enabled or not (the state is quantified over both) and for either codec
(`jd`/`data_is_json` are quantified). -/
theorem C1_round_trip (s : SimpleCache) (k : String) (v : Value) (cs : String)
    (exp now t : Int) (jd : Bool)
    (hexit : s.exit = false) (hab : s.abortRequested = false)
    (ht : t < now + exp) :
    ((s.set k v cs exp jd now).get k cs jd t).1 = v := by
  obtain ⟨hw, hdb, hen, hdj, hg, hex2, hab2⟩ :=
    set_state s k v cs exp now jd hexit hab
  set s' := s.set k v cs exp jd now with hs'
  have hdbhit := db_hit s' k (getChecksum s.global_checksum cs) t jd
      ⟨now + exp, ⟨jd || s.data_is_json, v⟩, getChecksum s.global_checksum cs⟩
      (by rw [hdb]; exact alookup_aset_same _ _ _)
      (by simp [hdj]) hex2 hab2
  rw [if_pos ⟨ht, Or.inr rfl⟩] at hdbhit
  unfold SimpleCache.get
  rw [hg]
  cases he : s.enable_mem_cache with
  | false =>
    simpa [hen, he] using hdbhit
  | true =>
    have hmem := mem_hit s' k (getChecksum s.global_checksum cs) t jd
        (jd || s.data_is_json) (now + exp) v (getChecksum s.global_checksum cs)
        (by rw [hw]; rw [if_pos he]; exact alookup_aset_same _ _ _)
        (by simp [hdj])
    rw [if_pos ⟨ht, Or.inr rfl⟩] at hmem
    simp only [hen, he, if_true]
    rw [hmem]
    by_cases hv : v = .null
    · subst hv
      simpa using hdbhit
    · simp only [if_neg hv]

/-- C1 witness: two concrete round trips, one with the ephemeral tier
enabled and the generic codec, one with it disabled and the structured
codec. -/
theorem C1_witness :
    ((initState.set "k" (.pair (.int 3) (.str "x")) "ver" 10 false 0).get
        "k" "ver" false 5).1 = Value.pair (.int 3) (.str "x") ∧
    (((SimpleCache.set { initState with enable_mem_cache := false } "k2"
        (.int 9) "" 10 true 0).get "k2" "" true 5).1 = Value.int 9) :=
  ⟨C1_round_trip initState "k" (.pair (.int 3) (.str "x")) "ver" 10 0 5 false
      rfl rfl (by decide),
   C1_round_trip { initState with enable_mem_cache := false } "k2" (.int 9)
      "" 10 0 5 true rfl rfl (by decide)⟩

theorem get_via_db (s : SimpleCache) (k cs : String) (jd : Bool) (t : Int)
    (hmm : s.get_mem_cache k (getChecksum s.global_checksum cs) t jd
      = .null) :
    s.get k cs jd t
      = s.get_db_cache k (getChecksum s.global_checksum cs) t jd := by
  unfold SimpleCache.get
  cases he : s.enable_mem_cache <;> simp [he, hmm]

theorem get_db_cache_miss (s : SimpleCache) (k : String) (req : Nat)
    (t : Int) (jd : Bool) (hnone : alookup s.db k = none) :
    (s.get_db_cache k req t jd).1 = .null := by
  unfold SimpleCache.get_db_cache
  by_cases hok : sqlOk { s with dbOpen := true } = true <;> simp [hok, hnone]

theorem db_hit_promote (s : SimpleCache) (k : String) (req : Nat) (t : Int)
    (jd : Bool) (row : DbRow)
    (hdb : alookup s.db k = some row)
    (hrfl : row.data.jsonFlag = (jd || s.data_is_json))
    (hexit : s.exit = false) (hab : s.abortRequested = false)
    (hen : s.enable_mem_cache = true)
    (ht : t < row.expires) (hcs : req = 0 ∨ row.checksum = req) :
    s.get_db_cache k req t jd
      = (row.data.value,
         SimpleCache.set_mem_cache { s with dbOpen := true } k req
           row.expires row.data.value jd) := by
  unfold SimpleCache.get_db_cache
  have hok : sqlOk { s with dbOpen := true } = true := by
    rw [sqlOk_eq]; simp [hexit, hab]
  simp only [hok, if_pos rfl]
  rw [show ({ s with dbOpen := true } : SimpleCache).db = s.db from rfl, hdb]
  simp [hrfl, ht, hcs, hen, gt_iff_lt]

/-- C9: a valid persistent hit is promoted into the ephemeral tier with the
caller's effective requested checksum, not the row's stored checksum, while
the row's expiry is preserved.  A get with no checksum (effective 0) hitting
a row with nonzero stored checksum writes an ephemeral copy with checksum 0;
a later get whose checksum hashes to the row's checksum then misses the
ephemeral tier and is answered by the persistent tier again. -/
theorem C9_promotion_requested_checksum (s : SimpleCache) (k : String)
    (jd : Bool) (t1 t2 : Int) (cs2 : String) (row : DbRow)
    (hexit : s.exit = false) (hab : s.abortRequested = false)
    (hen : s.enable_mem_cache = true)
    (hgf : gTruthy s.global_checksum = false)
    (hm : alookup s.win k = none)
    (hdb : alookup s.db k = some row)
    (hc : row.checksum ≠ 0)
    (ht1 : t1 < row.expires) (ht2 : t2 < row.expires)
    (hrfl : row.data.jsonFlag = (jd || s.data_is_json))
    (hc2 : getChecksum s.global_checksum cs2 = row.checksum) :
    (s.get k "" jd t1).1 = row.data.value ∧
    alookup (s.get k "" jd t1).2.win k
      = some (.entry (jd || s.data_is_json) row.expires row.data.value 0) ∧
    (s.get k "" jd t1).2.get_mem_cache k
        (getChecksum s.global_checksum cs2) t2 jd = .null ∧
    ((s.get k "" jd t1).2.get k cs2 jd t2).1 = row.data.value := by
  have h0 : getChecksum s.global_checksum "" = 0 := by
    simp [getChecksum, hgf]
  have hmemmiss : s.get_mem_cache k (getChecksum s.global_checksum "") t1 jd
      = .null := by
    unfold SimpleCache.get_mem_cache
    rw [hm]
  have hpromote :=
    db_hit_promote s k 0 t1 jd row hdb hrfl hexit hab hen ht1 (Or.inl rfl)
  have hg1 : s.get k "" jd t1 = s.get_db_cache k 0 t1 jd := by
    rw [get_via_db s k "" jd t1 hmemmiss, h0]
  rw [hg1, hpromote]
  have hS1win : alookup (SimpleCache.set_mem_cache { s with dbOpen := true }
      k 0 row.expires row.data.value jd).win k
      = some (.entry (jd || s.data_is_json) row.expires row.data.value 0) := by
    unfold SimpleCache.set_mem_cache
    exact alookup_aset_same _ _ _
  have hmm : (SimpleCache.set_mem_cache { s with dbOpen := true } k 0
      row.expires row.data.value jd).get_mem_cache k
      (getChecksum s.global_checksum cs2) t2 jd = .null := by
    rw [mem_hit _ k _ t2 jd (jd || s.data_is_json) row.expires
      row.data.value 0 hS1win rfl, hc2]
    rw [if_neg (by rintro ⟨-, h | h⟩ <;> exact hc h)]
  refine ⟨rfl, hS1win, hmm, ?_⟩
  show ((SimpleCache.set_mem_cache { s with dbOpen := true } k 0
      row.expires row.data.value jd).get k cs2 jd t2).1 = row.data.value
  rw [get_via_db _ k cs2 jd t2 hmm]
  have hdh := db_hit (SimpleCache.set_mem_cache { s with dbOpen := true }
      k 0 row.expires row.data.value jd) k (getChecksum s.global_checksum cs2)
      t2 jd row hdb hrfl hexit hab
  rw [if_pos ⟨ht2, Or.inr hc2⟩] at hdh
  exact hdh

/-- State used by the C9 witness: no ephemeral entry, one persistent row
with stored checksum 97 (the character code sum of `"a"`). -/
def c9State : SimpleCache :=
  { initState with db := [("k", ⟨100, ⟨false, .int 5⟩, 97⟩)] }

/-- C9 witness: a checksum-less get promotes the row with checksum 0; a get
with checksum `"a"` (hash 97) then misses the ephemeral copy and is served
by the persistent row. -/
theorem C9_witness :
    ((c9State.get "k" "" false 0).1 = Value.int 5) ∧
    (alookup (c9State.get "k" "" false 0).2.win "k"
      = some (.entry false 100 (.int 5) 0)) ∧
    ((c9State.get "k" "" false 0).2.get_mem_cache "k"
        (getChecksum c9State.global_checksum "a") 1 false = .null) ∧
    (((c9State.get "k" "" false 0).2.get "k" "a" false 1).1 = Value.int 5) :=
  C9_promotion_requested_checksum c9State "k" false 0 1 "a"
    ⟨100, ⟨false, .int 5⟩, 97⟩ rfl rfl rfl (by decide) (by decide)
    (by decide) (by decide) (by decide) (by decide) (by decide) (by decide)

/-- C10: a stored payload of `None` is returned as `None`, the same value
`get` uses for a miss.  With a fresh, valid ephemeral entry whose payload
is `None`, `get` still proceeds to the persistent tier, and when the
persistent tier has no row either, the overall result is `None`, exactly as
for an absent key. -/
theorem C10_null_indistinguishable (s : SimpleCache) (k : String)
    (cs : String) (jd fl : Bool) (t ex : Int) (c : Nat)
    (hm : alookup s.win k = some (.entry fl ex .null c))
    (hfl : fl = (jd || s.data_is_json))
    (ht : t < ex)
    (hpass : getChecksum s.global_checksum cs = 0 ∨
      getChecksum s.global_checksum cs = c) :
    s.get k cs jd t
        = s.get_db_cache k (getChecksum s.global_checksum cs) t jd ∧
    (alookup s.db k = none → (s.get k cs jd t).1 = .null) := by
  have hmem : s.get_mem_cache k (getChecksum s.global_checksum cs) t jd
      = .null := by
    rw [mem_hit s k _ t jd fl ex .null c hm hfl]
    split_ifs <;> rfl
  have hget := get_via_db s k cs jd t hmem
  refine ⟨hget, ?_⟩
  intro hnone
  rw [hget]
  exact get_db_cache_miss s k _ t jd hnone

/-- State used by the C10 witness: a fresh valid ephemeral entry whose
payload is `None`, and an empty persistent tier. -/
def c10State : SimpleCache :=
  { initState with win := [("k", .entry false 100 .null 0)] }

/-- C10 witness: the cached `None` behaves exactly like a miss. -/
theorem C10_witness :
    c10State.get "k" "" false 0
        = c10State.get_db_cache "k"
            (getChecksum c10State.global_checksum "") 0 false ∧
    (alookup c10State.db "k" = none →
      (c10State.get "k" "" false 0).1 = .null) :=
  C10_null_indistinguishable c10State "k" "" false false 0 100 0
    (by decide) (by decide) (by decide) (by decide)

/-- The state after a completed first `close()` on a fresh engine: exit flag
set, connection released, and the instance attributes `_win` and `_monitor`
deleted. -/
def closedState : SimpleCache :=
  { initState with exit := true, winAttr := false, monitorAttr := false }

/-- C5 counterexample: on a fresh engine the first `close()` completes, but
a second `close()` raises `AttributeError` at `del self._win` (the instance
attribute was already removed by the first call and only the class-level
`_win = None` remains, which `del` cannot remove), so `close` is not
idempotent as claimed. -/
theorem C5_counterexample :
    initState.close = .closed closedState ∧
      closedState.close = .raised closedState := by
  refine ⟨by decide, by decide⟩

/-- Helper: updating `exit` to `true` is the identity on a state whose exit
flag is already set. -/
theorem exit_update_self (s : SimpleCache) (h : s.exit = true) :
    ({ s with exit := true } : SimpleCache) = s := by
  cases s
  simp_all

/-- C5 (amended): `close()` is not idempotent.  After a completed first
call, a second call re-sets the (already set) cancellation flag, skips the
busy wait and the connection release, performs no further effects — the
state carried by the exception equals the closed state — and then raises
`AttributeError` from `del self._win` instead of returning normally. -/
theorem C5_second_close_raises (s s' : SimpleCache)
    (h : s.close = .closed s') : s'.close = .raised s' := by
  obtain ⟨em, dj, g, ex, ab, bt, w, wa, ma, dbo, dbl⟩ := s
  unfold SimpleCache.close at h
  by_cases hbusy : bt ≠ [] ∧ ab = false
  · simp [hbusy] at h
  · cases wa <;> cases ma <;> cases dbo <;> simp [hbusy] at h <;>
      (subst h; simp [SimpleCache.close, hbusy])

/-- C5 witness: the amended theorem applied to the concrete fresh engine. -/
theorem C5_witness : closedState.close = .raised closedState :=
  C5_second_close_raises initState closedState (by decide)

theorem cleanupLoop_inv (cur_ts : Int) (seq : Nat → Bool) :
    ∀ (rows : List (String × Int)) (s : SimpleCache) (n : Nat),
      ((cleanupLoop cur_ts seq s rows n).state).busy_tasks = s.busy_tasks ∧
      ((cleanupLoop cur_ts seq s rows n).state).abortRequested
        = s.abortRequested ∧
      ∀ kk, (∀ p ∈ rows, p.1 ≠ kk) →
        alookup ((cleanupLoop cur_ts seq s rows n).state).win kk
          = alookup s.win kk := by
  intro rows
  induction rows with
  | nil =>
    intro s n
    exact ⟨rfl, rfl, fun _ _ => rfl⟩
  | cons p rest ih =>
    intro s n
    obtain ⟨id, exp⟩ := p
    have hid : (∀ q ∈ (id, exp) :: rest, q.1 ≠ busyKey ∨ True) := fun _ _ => Or.inr trivial
    by_cases hab : (s.exit || seq n) = true
    · simp [cleanupLoop, hab, LoopResult.state]
    · have hb : (s.exit || seq n) = false := by simpa using hab
      by_cases hexp : exp < cur_ts
      · by_cases hdel : (!seq (n + 1) && !s.exit) = true
        · simp only [cleanupLoop, hb, Bool.false_eq_true, if_false, hexp,
            if_true, hdel]
          refine ⟨(ih _ _).1, (ih _ _).2.1, fun kk hkk => ?_⟩
          rw [(ih _ _).2.2 kk (fun q hq => hkk q (List.mem_cons_of_mem _ hq))]
          exact alookup_aerase_ne _
            (Ne.symm (hkk (id, exp) (List.mem_cons_self _ _)))
        · have hdel' : (!seq (n + 1) && !s.exit) = false := by simpa using hdel
          simp only [cleanupLoop, hb, Bool.false_eq_true, if_false, hexp,
            if_true, hdel']
          refine ⟨(ih _ _).1, (ih _ _).2.1, fun kk hkk => ?_⟩
          rw [(ih _ _).2.2 kk (fun q hq => hkk q (List.mem_cons_of_mem _ hq))]
          exact alookup_aerase_ne _
            (Ne.symm (hkk (id, exp) (List.mem_cons_self _ _)))
      · simp only [cleanupLoop, hb, Bool.false_eq_true, if_false,
          if_neg hexp]
        refine ⟨(ih _ _).1, (ih _ _).2.1, fun kk hkk => ?_⟩
        rw [(ih _ _).2.2 kk (fun q hq => hkk q (List.mem_cons_of_mem _ hq))]
        exact alookup_aerase_ne _
          (Ne.symm (hkk (id, exp) (List.mem_cons_self _ _)))

theorem cleanupLoop_aborted_inv (cur_ts : Int) (seq : Nat → Bool)
    (rows : List (String × Int)) (s : SimpleCache) (n : Nat)
    (s4 : SimpleCache) (h : cleanupLoop cur_ts seq s rows n = .aborted s4) :
    s4.busy_tasks = s.busy_tasks ∧ s4.abortRequested = s.abortRequested ∧
    ∀ kk, (∀ p ∈ rows, p.1 ≠ kk) →
      alookup s4.win kk = alookup s.win kk := by
  have hinv := cleanupLoop_inv cur_ts seq rows s n
  rw [h] at hinv
  simpa [LoopResult.state] using hinv

/-- State used for the C6 counterexample: one unexpired row, abort signal
firing from the third probe on (i.e. during row enumeration). -/
def c6State : SimpleCache :=
  { initState with db := [("k1", ⟨100, ⟨false, .int 1⟩, 0⟩)] }

/-- Abort schedule for C6: false at the entry probe and the SELECT guard,
true from the first row probe on. -/
def c6Abort : Nat → Bool := fun n => 2 ≤ n

/-- The state in which the C6 run returns early: busy task appended, busy
marker still set, connection opened, nothing swept. -/
def c6Res : SimpleCache :=
  { c6State with
      busy_tasks := [moduleName]
      win := [(busyKey, .marker "busy")]
      dbOpen := true }

/-- C6 counterexample: when the abort signal fires while the sweep is
enumerating rows, `_do_cleanup` returns through the mid-loop `return`,
which does NOT clear the `"simplecachecleanbusy"` marker — contradicting
the claim that every early-abort exit leaves the marker cleared. -/
theorem C6_counterexample :
    c6State.do_cleanup 0 c6Abort = .earlyAbort c6Res ∧
      alookup c6Res.win busyKey = some (.marker "busy") := by
  refine ⟨by decide, by decide⟩

/-- C6 (amended): if the abort signal fires while the sweep is enumerating
rows, the sweep returns early with the "cleanup in progress" marker still
SET (no code on that path clears it); the marker is cleared only when the
sweep runs to completion.  The hypothesis keeps cache rows whose id would
collide with the marker key out of the table (such a row's
`clearProperty(id)` would clear the marker as a side effect). -/
theorem C6_abort_leaves_marker_set (s : SimpleCache) (now : Int)
    (seq : Nat → Bool) (s' : SimpleCache)
    (hdb : ∀ p ∈ s.db, p.1 ≠ busyKey) :
    (s.do_cleanup now seq = .earlyAbort s' →
      alookup s'.win busyKey = some (.marker "busy")) ∧
    (s.do_cleanup now seq = .done s' →
      alookup s'.win busyKey = none) := by
  obtain ⟨em, dj, g, ex, ab, bt, w, wa, ma, dbo, dbl⟩ := s
  simp only at hdb
  constructor
  · intro h
    simp only [SimpleCache.do_cleanup] at h
    by_cases h0 : (ex || seq 0) = true
    · rw [if_pos h0] at h
      cases h
    · rw [if_neg h0] at h
      by_cases h1 : propTruthy (alookup w busyKey) = true
      · rw [if_pos h1] at h
        cases h
      · rw [if_neg h1] at h
        by_cases hc : (!seq 1 && !ex) = true
        · rw [if_pos hc] at h
          split at h
          · rename_i s4 heq
            cases h
            obtain ⟨-, -, hwin⟩ :=
              cleanupLoop_aborted_inv _ _ _ _ _ _ heq
            rw [hwin busyKey ?_]
            · exact alookup_aset_same _ _ _
            · intro p hp
              obtain ⟨q, hq, rfl⟩ := List.mem_map.mp hp
              exact hdb q hq
          · rename_i s4 n4 heq
            cases h
        · rw [if_neg hc] at h
          cases h
  · intro h
    simp only [SimpleCache.do_cleanup] at h
    by_cases h0 : (ex || seq 0) = true
    · rw [if_pos h0] at h
      cases h
    · rw [if_neg h0] at h
      by_cases h1 : propTruthy (alookup w busyKey) = true
      · rw [if_pos h1] at h
        cases h
      · rw [if_neg h1] at h
        by_cases hc : (!seq 1 && !ex) = true
        · rw [if_pos hc] at h
          split at h
          · rename_i s4 heq
            cases h
          · rename_i s4 n4 heq
            cases h
            exact alookup_aerase_same _ _
        · rw [if_neg hc] at h
          cases h
          exact alookup_aerase_same _ _

/-- C6 witness: the amended theorem at the concrete aborted run. -/
theorem C6_witness :
    alookup c6Res.win busyKey = some (.marker "busy") :=
  (C6_abort_leaves_marker_set c6State 0 c6Abort c6Res
    (by decide)).1 (by decide)

theorem close_blocked (s : SimpleCache) (hb : s.busy_tasks ≠ [])
    (ha : s.abortRequested = false) :
    s.close = .blocked { s with exit := true } := by
  simp only [SimpleCache.close]
  rw [if_pos ⟨hb, ha⟩]

/-- C8: both early returns of `_do_cleanup` that happen after the
busy-task append — the one taken when the `"simplecachecleanbusy"` marker
is already set, and the one taken when the abort signal fires
mid-enumeration — leave the sweep's `__name__` entry in `_busy_tasks`
(the list is its pre-call value plus that entry), and a subsequent
`close()` on such a state enters its drain loop and stays there until the
host abort signal fires. -/
theorem C8_cleanup_task_leak (s : SimpleCache) (now : Int)
    (seq : Nat → Bool) (s' : SimpleCache)
    (hab : s.abortRequested = false) :
    (s.do_cleanup now seq = .earlyBusy s' →
      s'.busy_tasks = s.busy_tasks ++ [moduleName] ∧
      s'.close = .blocked { s' with exit := true }) ∧
    (s.do_cleanup now seq = .earlyAbort s' →
      s'.busy_tasks = s.busy_tasks ++ [moduleName] ∧
      s'.close = .blocked { s' with exit := true }) := by
  obtain ⟨em, dj, g, ex, ab, bt, w, wa, ma, dbo, dbl⟩ := s
  simp only at hab
  constructor
  · intro h
    simp only [SimpleCache.do_cleanup] at h
    by_cases h0 : (ex || seq 0) = true
    · rw [if_pos h0] at h
      cases h
    · rw [if_neg h0] at h
      by_cases h1 : propTruthy (alookup w busyKey) = true
      · rw [if_pos h1] at h
        cases h
        refine ⟨rfl, ?_⟩
        simp [SimpleCache.close, hab]
      · rw [if_neg h1] at h
        by_cases hc : (!seq 1 && !ex) = true
        · rw [if_pos hc] at h
          split at h
          · rename_i s4 heq
            cases h
          · rename_i s4 n4 heq
            cases h
        · rw [if_neg hc] at h
          cases h
  · intro h
    simp only [SimpleCache.do_cleanup] at h
    by_cases h0 : (ex || seq 0) = true
    · rw [if_pos h0] at h
      cases h
    · rw [if_neg h0] at h
      by_cases h1 : propTruthy (alookup w busyKey) = true
      · rw [if_pos h1] at h
        cases h
      · rw [if_neg h1] at h
        by_cases hc : (!seq 1 && !ex) = true
        · rw [if_pos hc] at h
          split at h
          · rename_i s4 heq
            cases h
            obtain ⟨hb1, hb2, -⟩ :=
              cleanupLoop_aborted_inv _ _ _ _ _ _ heq
            have hbusy : s'.busy_tasks = bt ++ [moduleName] := hb1
            have habr : s'.abortRequested = false := by
              rw [hb2]
              exact hab
            refine ⟨hbusy, ?_⟩
            exact close_blocked _ (by rw [hbusy]; simp) habr
          · rename_i s4 n4 heq
            cases h
        · rw [if_neg hc] at h
          cases h

/-- State used by the C8 witness: the busy marker already set before the
sweep starts. -/
def c8State : SimpleCache :=
  { initState with win := [(busyKey, .marker "busy")] }

/-- The early-return state of the C8 witness run. -/
def c8Res : SimpleCache :=
  { c8State with busy_tasks := [moduleName] }

/-- C8 witness: the theorem at the concrete marker-already-set run. -/
theorem C8_witness :
    c8Res.busy_tasks = c8State.busy_tasks ++ [moduleName] ∧
      c8Res.close = .blocked { c8Res with exit := true } :=
  (C8_cleanup_task_leak c8State 0 (fun _ => false) c8Res rfl).1 (by decide)

end Simplecache
